import Mathlib

/-!
A verification development for a small Python client library for the Asana
HTTP API (`asana.py`).  The code is shallowly embedded: Python values become
the `PyVal` type, Python exceptions become the `PyError` type, and every
method that performs HTTP calls becomes a function into the `ApiM` monad,
which pairs an `Except` result with the list of HTTP requests issued, in
order.  The remote server is modelled as an oracle `Api` mapping each
request to an `HttpResponse`; the transport-layer functions
(`checkHttpStatus`, `handleResponse`) are applied to the oracle's response
exactly as the source applies them to the `requests` response object.
-/

/-- A parsed `datetime.datetime` value (as produced by `strptime`). -/
structure Datetime where
  year : Nat
  month : Nat
  day : Nat
  hour : Nat
  minute : Nat
  second : Nat
  microsecond : Nat
deriving DecidableEq, Repr

/-- Python values as they occur in this library: JSON scalars, lists,
dicts (assoc lists keyed by strings), datetimes, and an opaque float
(no claim depends on float arithmetic, only on the `float` type tag). -/
inductive PyVal where
  | vnone
  | vbool (b : Bool)
  | vint (n : Int)
  | vfloat
  | vstr (s : String)
  | vdatetime (d : Datetime)
  | vlist (xs : List PyVal)
  | vdict (kvs : List (String × PyVal))

/-- The Python exceptions this library can raise.  `asanaError` is the
domain error (`AsanaError`); the rest are built-in interpreter errors. -/
inductive PyError where
  | asanaError (msg : String)
  | typeError (msg : String)
  | keyError (key : String)
  | indexError (msg : String)
  | nameError (nm : String)
  | unboundLocalError (nm : String)
  | attributeError (msg : String)
  | valueError (msg : String)
deriving DecidableEq, Repr

/-- `s.split(c)` for a single-character separator `c`, over the character
list (empty segments preserved, exactly like Python's `str.split` with an
explicit separator). -/
def splitCharList : List Char → Char → List (List Char)
  | [], _ => [[]]
  | ch :: rest, c =>
    let r := splitCharList rest c
    if ch == c then [] :: r
    else
      match r with
      | [] => [[ch]]
      | g :: gs => (ch :: g) :: gs

/-- `s.split(c)` for a single-character separator. -/
def splitChar (s : String) (c : Char) : List String :=
  (splitCharList s.data c).map (fun l => String.mk l)

/-- `s.replace(old, new)` for single-character `old` and `new`. -/
def mapChar (s : String) (old new : Char) : String :=
  String.mk (s.data.map (fun ch => if ch == old then new else ch))

/-- `s.replace(old, '')` for a single-character `old`. -/
def stripChar (s : String) (old : Char) : String :=
  String.mk (s.data.filter (fun ch => ch != old))

/-- Python truthiness (`bool(v)`), as used by `if x:` and `x and y`. -/
def PyVal.truthy : PyVal → Bool
  | .vnone => false
  | .vbool b => b
  | .vint n => n != 0
  | .vfloat => true
  | .vstr s => !s.isEmpty
  | .vdatetime _ => true
  | .vlist xs => !xs.isEmpty
  | .vdict kvs => !kvs.isEmpty

/-- `v[k]` for a string key `k`: dict lookup, `KeyError` when the key is
missing, `TypeError` when `v` does not support string subscripts. -/
def PyVal.getItem : PyVal → String → Except PyError PyVal
  | .vdict kvs, k =>
    match kvs.find? (fun p => p.1 == k) with
    | some p => .ok p.2
    | none => .error (.keyError k)
  | .vnone, _ => .error (.typeError "NoneType object is not subscriptable")
  | .vlist _, _ => .error (.typeError "list indices must be integers")
  | _, _ => .error (.typeError "object is not subscriptable")

/-- `v[i]` for a numeric index `i` (used for `errors[0]`). -/
def PyVal.getIdx : PyVal → Nat → Except PyError PyVal
  | .vlist xs, i =>
    match xs[i]? with
    | some x => .ok x
    | none => .error (.indexError "list index out of range")
  | .vnone, _ => .error (.typeError "NoneType object is not subscriptable")
  | _, _ => .error (.typeError "object is not subscriptable")

/-- `for elt in v`: lists yield their elements, dicts their keys; other
values used in `for` loops by this library would be a `TypeError`. -/
def PyVal.iterate : PyVal → Except PyError (List PyVal)
  | .vlist xs => .ok xs
  | .vdict kvs => .ok (kvs.map (fun p => .vstr p.1))
  | _ => .error (.typeError "object is not iterable")

/-- `str(v)` as used to build URL path segments (`str(endpoint)`); only
ints and strings reach this function in the library, container renderings
are abbreviated. -/
def PyVal.pyStr : PyVal → String
  | .vint n => toString n
  | .vstr s => s
  | .vbool b => if b then "True" else "False"
  | .vnone => "None"
  | .vfloat => "float"
  | .vdatetime _ => "datetime"
  | .vlist _ => "list"
  | .vdict _ => "dict"

/-- `r.json[k]` where `r.json` is `None` when the body was not valid JSON
(the old `requests` library parsed lazily and yielded `None` on failure):
subscripting `None` is a `TypeError`. -/
def jsonGet (j : Option PyVal) (k : String) : Except PyError PyVal :=
  match j with
  | none => .error (.typeError "NoneType object is not subscriptable")
  | some v => v.getItem k

/-- The slice of a `requests` response object the library reads:
`r.status_code`, `r.headers['content-type']`, and `r.json`. -/
structure HttpResponse where
  status : Nat
  contentType : String
  json : Option PyVal

/-- `str(r)` for a `requests` response object. -/
def HttpResponse.pyStr (r : HttpResponse) : String :=
  "<Response [" ++ toString r.status ++ "]>"

/-- `AsanaClient._check_http_status`: 200/201 pass; otherwise
`error_message = r.json['errors'][0]['message']` is computed first; 400,
401, 403, 404, 429 raise `AsanaError` with that message; 500 re-reads the
`phrase` field and then evaluates the undefined name `ph` inside the
format expression, so it raises `NameError`, not `AsanaError`; any other
status falls through and returns normally. -/
def checkHttpStatus (r : HttpResponse) : Except PyError Unit :=
  let sc := r.status
  if sc == 200 || sc == 201 then .ok ()
  else do
    let errs ← jsonGet r.json "errors"
    let e0 ← errs.getIdx 0
    let em ← e0.getItem "message"
    if sc ∈ [400, 401, 403, 404, 429] then
      .error (.asanaError ("Error: HTTP Status " ++ toString sc ++ ": " ++ em.pyStr))
    else if sc == 500 then do
      let errs2 ← jsonGet r.json "errors"
      let e02 ← errs2.getIdx 0
      let _phrase ← e02.getItem "phrase"
      -- the raise statement formats `(r.status_code, error_message, ph)`
      -- and `ph` is an undefined name
      .error (.nameError "ph")
    else
      .ok ()

/-- `AsanaClient._handle_response`: content-type must declare
`application/json`, then the JSON envelope's `data` field is returned. -/
def handleResponse (r : HttpResponse) : Except PyError PyVal :=
  if (splitChar r.contentType ';').headD "" == "application/json" then
    jsonGet r.json "data"
  else
    .error (.asanaError ("Did not receive json from api: " ++ r.pyStr))

/-- What every transport method does with the response object:
`self._check_http_status(r)` followed by `self._handle_response(r)`. -/
def processResponse (r : HttpResponse) : Except PyError PyVal := do
  checkHttpStatus r
  handleResponse r

/-- HTTP method of a transport call. -/
inductive Method where
  | GET
  | POST
  | PUT
deriving DecidableEq, Repr

/-- One HTTP request as the transport layer issues it: the method, the
`resource` and `endpoint` path segments, and the form payload. -/
structure Request where
  method : Method
  resource : String
  endpoint : String
  data : List (String × PyVal)

/-- The remote server, modelled as an oracle from requests to responses. -/
structure Api where
  server : Request → HttpResponse

/-- A resource-layer computation: the result (or the Python exception that
escaped) together with the list of HTTP requests issued, in order.  When
an exception aborts the computation, the trace stops with it. -/
def ApiM (α : Type) : Type := Except PyError α × List Request

def ApiM.pure (a : α) : ApiM α := (.ok a, [])

def ApiM.bind (x : ApiM α) (f : α → ApiM β) : ApiM β :=
  match x with
  | (.error e, tr) => (.error e, tr)
  | (.ok a, tr) => ((f a).1, tr ++ (f a).2)

instance : Monad ApiM where
  pure := ApiM.pure
  bind := ApiM.bind

/-- Run a pure (request-free) Python step inside `ApiM`. -/
def ApiM.liftE (x : Except PyError α) : ApiM α := (x, [])

/-- `AsanaClient.get(resource, endpoint)`. -/
def Api.get (api : Api) (resource endpoint : String) : ApiM PyVal :=
  let req : Request := ⟨.GET, resource, endpoint, []⟩
  (processResponse (api.server req), [req])

/-- `AsanaClient.post(resource, endpoint, data)`. -/
def Api.post (api : Api) (resource endpoint : String)
    (data : List (String × PyVal)) : ApiM PyVal :=
  let req : Request := ⟨.POST, resource, endpoint, data⟩
  (processResponse (api.server req), [req])

/-- `AsanaClient.put(resource, endpoint, data)`. -/
def Api.put (api : Api) (resource endpoint : String)
    (data : List (String × PyVal)) : ApiM PyVal :=
  let req : Request := ⟨.PUT, resource, endpoint, data⟩
  (processResponse (api.server req), [req])

/-- `int(s)` for a nonempty all-digit string, `None` otherwise (the shape
`strptime` accepts for each numeric field). -/
def strToNat (s : String) : Option Nat :=
  if !s.data.isEmpty && s.data.all Char.isDigit then
    some (s.data.foldl (fun n c => n * 10 + (c.toNat - 48)) 0)
  else
    none

/-- `strptime(s, '%Y-%m-%d %H:%M:%S.%f')` for the shapes this library
feeds it: four dash-separated and colon-separated numeric fields plus a
fractional-second field of one to six digits, right-padded to
microseconds. -/
def strptimeYmdHmsF (s : String) : Option Datetime :=
  match splitChar s ' ' with
  | [d, t] =>
    match splitChar d '-', splitChar t ':' with
    | [y, mo, da], [h, mi, sf] =>
      match splitChar sf '.' with
      | [ss, ff] => do
        let yn ← strToNat y
        let mon ← strToNat mo
        let dan ← strToNat da
        let hn ← strToNat h
        let min ← strToNat mi
        let sn ← strToNat ss
        let fn ← strToNat ff
        if 1 ≤ mon && mon ≤ 12 && 1 ≤ dan && dan ≤ 31 && hn ≤ 23 &&
            min ≤ 59 && sn ≤ 61 && 1 ≤ ff.data.length && ff.data.length ≤ 6 then
          some ⟨yn, mon, dan, hn, min, sn, fn * 10 ^ (6 - ff.data.length)⟩
        else
          none
      | _ => none
    | _, _ => none
  | _ => none

/-- `AsanaResource._utcstr_to_datetime`: replace `T` by a space and drop
`Z`, then `strptime`.  Calling `.replace` on a non-string is an
`AttributeError`; a string that does not match the format is a
`ValueError` from `strptime`. -/
def utcstrToDatetime (v : PyVal) : Except PyError PyVal :=
  match v with
  | .vstr s0 =>
    let s := stripChar (mapChar s0 'T' ' ') 'Z'
    match strptimeYmdHmsF s with
    | some d => .ok (.vdatetime d)
    | none => .error (.valueError "time data does not match format %Y-%m-%d %H:%M:%S.%f")
  | _ => .error (.attributeError "object has no attribute replace")

/-- The `date_frmtr` lambda in `Task.__init__`:
`lambda d: self._utcstr_to_datetime(d) if d else None`. -/
def dateFrmtr (d : PyVal) : Except PyError PyVal :=
  if d.truthy then utcstrToDatetime d else .ok .vnone

/-- Instance attributes of `User` (`self._id`, `self._name`,
`self._email`). -/
structure UserState where
  uid : PyVal
  uname : PyVal
  uemail : PyVal

/-- Instance attributes of `Workspace`. -/
structure WorkspaceState where
  wid : PyVal
  wname : PyVal

/-- Instance attributes of `Task`.  `tworkspace` models the vestigial
`self._workspace = None` set by the constructor (the `workspace` property
never reads it). -/
structure TaskState where
  tid : PyVal
  tname : PyVal
  tnotes : PyVal
  tassignee_status : PyVal
  tcreated_at : PyVal
  tmodified_at : PyVal
  tcompleted_at : PyVal
  tcompleted : PyVal
  tdue_on : PyVal
  ttags : PyVal
  tprojects : PyVal
  tworkspace : Option WorkspaceState

/-- Instance attributes of `Tag`.  `gworkspace` is the memoization slot
`self._workspace`. -/
structure TagState where
  gid : PyVal
  gname : PyVal
  gnotes : PyVal
  gcreated_at : PyVal
  gworkspace : Option WorkspaceState

/-- Instance attributes of `Project`.  `pworkspace` is the memoization
slot `self._workspace`. -/
structure ProjectState where
  pid : PyVal
  pname : PyVal
  pnotes : PyVal
  parchived : PyVal
  pcreated_at : PyVal
  pmodified_at : PyVal
  pworkspace : Option WorkspaceState

/-- Instance attributes of `Story`. -/
structure StoryState where
  sid : PyVal
  stext : PyVal
  ssource : PyVal
  sstory_type : PyVal
  screated_at : PyVal

/-- The attribute-population block of `User.__init__`, in source order
(`name`, `email`, `id`). -/
def User.populate (jr : PyVal) : Except PyError UserState := do
  let nm ← jr.getItem "name"
  let em ← jr.getItem "email"
  let i ← jr.getItem "id"
  .ok ⟨i, nm, em⟩

/-- `User.__init__(api, user_id='me')`: one GET, then populate. -/
def User.initM (api : Api) (user_id : PyVal) : ApiM UserState := do
  let jr ← Api.get api "users" user_id.pyStr
  ApiM.liftE (User.populate jr)

/-- The attribute-population block of `Workspace.__init__`. -/
def Workspace.populate (jr : PyVal) : Except PyError WorkspaceState := do
  let i ← jr.getItem "id"
  let nm ← jr.getItem "name"
  .ok ⟨i, nm⟩

/-- `Workspace.__init__(api, workspace_id)`: one GET, then populate. -/
def Workspace.initM (api : Api) (workspace_id : PyVal) : ApiM WorkspaceState := do
  let jr ← Api.get api "workspaces" workspace_id.pyStr
  ApiM.liftE (Workspace.populate jr)

/-- The attribute-population block of `Task.__init__`, in source order. -/
def Task.populate (jr : PyVal) : Except PyError TaskState := do
  let i ← jr.getItem "id"
  let nm ← jr.getItem "name"
  let no ← jr.getItem "notes"
  let ast ← jr.getItem "assignee_status"
  let ca ← jr.getItem "created_at" >>= utcstrToDatetime
  let ma ← jr.getItem "modified_at" >>= utcstrToDatetime
  let cpa ← jr.getItem "completed_at" >>= dateFrmtr
  let co ← jr.getItem "completed"
  let du ← jr.getItem "due_on"
  let tg ← jr.getItem "tags"
  let pj ← jr.getItem "projects"
  .ok ⟨i, nm, no, ast, ca, ma, cpa, co, du, tg, pj, none⟩

/-- `Task.__init__(api, task_id=None, workspace_id=None, parent_id=None,
**kwargs)`: argument guards, then exactly one of GET-by-id,
POST-to-workspace (payload `dict([('workspace', workspace_id)] +
kwargs.items())`, modelled as the cons since no call site repeats the
`workspace` key), or POST-to-parent-subtasks, then populate. -/
def Task.initM (api : Api) (task_id workspace_id parent_id : PyVal)
    (kwargs : List (String × PyVal)) : ApiM TaskState :=
  if (task_id.truthy && workspace_id.truthy) ||
      (workspace_id.truthy && parent_id.truthy) ||
      (task_id.truthy && parent_id.truthy) then
    ApiM.liftE (.error (.asanaError
      "A Task must be created with exactly one of task_id, workspace_id, or parent_id"))
  else if task_id.truthy && !kwargs.isEmpty then
    ApiM.liftE (.error (.asanaError "Bad arguments"))
  else do
    let jr ←
      if task_id.truthy then
        Api.get api "tasks" task_id.pyStr
      else if workspace_id.truthy then
        Api.post api "tasks" "" (("workspace", workspace_id) :: kwargs)
      else if parent_id.truthy then
        Api.post api "tasks" (parent_id.pyStr ++ "/subtasks") kwargs
      else
        ApiM.liftE (.error (.asanaError "Bug encountered."))
    ApiM.liftE (Task.populate jr)

/-- The creation payload built by `Tag.__init__` when a `workspace_id` is
given: `workspace` always, `name`/`notes` only when truthy. -/
def tagCreationPayload (workspace_id name notes : PyVal) : List (String × PyVal) :=
  [("workspace", workspace_id)] ++
    (if name.truthy then [("name", name)] else []) ++
    (if notes.truthy then [("notes", notes)] else [])

/-- The attribute-population block of `Tag.__init__`. -/
def Tag.populate (jr : PyVal) : Except PyError TagState := do
  let i ← jr.getItem "id"
  let nm ← jr.getItem "name"
  let no ← jr.getItem "notes"
  let ca ← jr.getItem "created_at" >>= utcstrToDatetime
  .ok ⟨i, nm, no, ca, none⟩

/-- `Tag.__init__(api, tag_id=None, workspace_id=None, name=None,
notes=None)`.  The `if`/`elif` chain has no final `else`: with neither a
`tag_id` nor a `workspace_id` the local `jr` is never assigned and the
first populate line `self._id = jr['id']` raises `UnboundLocalError`; no
HTTP call happens between the chain and that line, so the error is raised
at the binding site here. -/
def Tag.initM (api : Api) (tag_id workspace_id name notes : PyVal) : ApiM TagState :=
  if tag_id.truthy && workspace_id.truthy then
    ApiM.liftE (.error (.asanaError "Requires a tag_id or workspace_id (not both)."))
  else if (workspace_id.truthy && tag_id.truthy) ||
      (tag_id.truthy && (name.truthy || notes.truthy)) then
    ApiM.liftE (.error (.asanaError "Bad Arguments."))
  else do
    let jr ←
      if tag_id.truthy then
        Api.get api "tags" tag_id.pyStr
      else if workspace_id.truthy then
        Api.post api "tags" "" (tagCreationPayload workspace_id name notes)
      else
        ApiM.liftE (.error (.unboundLocalError "jr"))
    ApiM.liftE (Tag.populate jr)

/-- The creation payload built by `Project.__init__` when a
`workspace_id` is given. -/
def projectCreationPayload (workspace_id name notes archived : PyVal) :
    List (String × PyVal) :=
  [("workspace", workspace_id)] ++
    (if name.truthy then [("name", name)] else []) ++
    (if notes.truthy then [("notes", notes)] else []) ++
    (if archived.truthy then [("archived", archived)] else [])

/-- The attribute-population block of `Project.__init__`. -/
def Project.populate (jr : PyVal) : Except PyError ProjectState := do
  let i ← jr.getItem "id"
  let nm ← jr.getItem "name"
  let no ← jr.getItem "notes"
  let ar ← jr.getItem "archived"
  let ca ← jr.getItem "created_at" >>= utcstrToDatetime
  let ma ← jr.getItem "modified_at" >>= utcstrToDatetime
  .ok ⟨i, nm, no, ar, ca, ma, none⟩

/-- `Project.__init__(api, project_id=None, workspace_id=None, name=None,
notes=None, archived=None)`.  Like `Tag.__init__`, the chain has no final
`else`, so with neither id the populate line raises `UnboundLocalError`
for `jr`. -/
def Project.initM (api : Api) (project_id workspace_id name notes archived : PyVal) :
    ApiM ProjectState :=
  if project_id.truthy && workspace_id.truthy then
    ApiM.liftE (.error (.asanaError "Bad Arguments"))
  else if project_id.truthy && (name.truthy || notes.truthy || archived.truthy) then
    ApiM.liftE (.error (.asanaError "Bad Arguments"))
  else do
    let jr ←
      if project_id.truthy then
        Api.get api "projects" project_id.pyStr
      else if workspace_id.truthy then
        Api.post api "projects" "" (projectCreationPayload workspace_id name notes archived)
      else
        ApiM.liftE (.error (.unboundLocalError "jr"))
    ApiM.liftE (Project.populate jr)

/-- The attribute-population block of `Story.__init__`. -/
def Story.populate (jr : PyVal) : Except PyError StoryState := do
  let i ← jr.getItem "id"
  let tx ← jr.getItem "text"
  let so ← jr.getItem "source"
  let ty ← jr.getItem "type"
  let ca ← jr.getItem "created_at" >>= utcstrToDatetime
  .ok ⟨i, tx, so, ty, ca⟩

/-- `Story.__init__(api, story_id)`: one GET, then populate. -/
def Story.initM (api : Api) (story_id : PyVal) : ApiM StoryState := do
  let jr ← Api.get api "stories" story_id.pyStr
  ApiM.liftE (Story.populate jr)

/-- A constructed resource object together with its runtime class, so the
class a relationship accessor wraps its records in is observable. -/
inductive Resource where
  | user (u : UserState)
  | workspace (w : WorkspaceState)
  | project (p : ProjectState)
  | tag (g : TagState)
  | task (t : TaskState)
  | story (s : StoryState)

/-- Runtime class test used to state which class a wrapper belongs to. -/
def Resource.isTask : Resource → Bool
  | .task _ => true
  | _ => false

/-- Runtime class test for `User`. -/
def Resource.isUser : Resource → Bool
  | .user _ => true
  | _ => false

/-- Runtime class test for `Tag`. -/
def Resource.isTag : Resource → Bool
  | .tag _ => true
  | _ => false

/-- `User.workspaces`: GET the user record, wrap `jr['workspaces']`
elements as `Workspace`. -/
def User.workspaces (api : Api) (u : UserState) : ApiM (List Resource) := do
  let jr ← Api.get api "users" u.uid.pyStr
  let ws ← ApiM.liftE (jr.getItem "workspaces")
  let elts ← ApiM.liftE ws.iterate
  elts.mapM (fun elt => do
    let i ← ApiM.liftE (elt.getItem "id")
    Resource.workspace <$> Workspace.initM api i)

/-- `Task.parent`: GET the task record; when `jr['parent']` is truthy the
source wraps the parent id in `User(...)` (not `Task`), else `None`. -/
def Task.parent (api : Api) (t : TaskState) : ApiM (Option Resource) := do
  let jr ← Api.get api "tasks" t.tid.pyStr
  let p ← ApiM.liftE (jr.getItem "parent")
  if p.truthy then do
    let i ← ApiM.liftE (p.getItem "id")
    (some ∘ Resource.user) <$> User.initM api i
  else
    ApiM.pure none

/-- `Task.workspace`: GET the task record, wrap `jr['workspace']['id']`
as `Workspace` (no memoization on Task). -/
def Task.workspace (api : Api) (t : TaskState) : ApiM Resource := do
  let jr ← Api.get api "tasks" t.tid.pyStr
  let w ← ApiM.liftE (jr.getItem "workspace")
  let i ← ApiM.liftE (w.getItem "id")
  Resource.workspace <$> Workspace.initM api i

/-- `Task.assignee` (getter): GET the task record, wrap
`jr['assignee']['id']` as `User` when truthy, else `None`. -/
def Task.assignee (api : Api) (t : TaskState) : ApiM (Option Resource) := do
  let jr ← Api.get api "tasks" t.tid.pyStr
  let a ← ApiM.liftE (jr.getItem "assignee")
  if a.truthy then do
    let i ← ApiM.liftE (a.getItem "id")
    (some ∘ Resource.user) <$> User.initM api i
  else
    ApiM.pure none

/-- `Task.followers`: GET the task record; wrap each follower as `User`
when `jr['followers']` is truthy, else return the empty list. -/
def Task.followers (api : Api) (t : TaskState) : ApiM (List Resource) := do
  let jr ← Api.get api "tasks" t.tid.pyStr
  let fs ← ApiM.liftE (jr.getItem "followers")
  if fs.truthy then do
    let elts ← ApiM.liftE fs.iterate
    elts.mapM (fun elt => do
      let i ← ApiM.liftE (elt.getItem "id")
      Resource.user <$> User.initM api i)
  else
    ApiM.pure []

/-- `Task.projects`: GET the task record; wrap each element of
`jr['projects']` as `Project` when truthy, else the empty list. -/
def Task.projects (api : Api) (t : TaskState) : ApiM (List Resource) := do
  let jr ← Api.get api "tasks" t.tid.pyStr
  let ps ← ApiM.liftE (jr.getItem "projects")
  if ps.truthy then do
    let elts ← ApiM.liftE ps.iterate
    elts.mapM (fun elt => do
      let i ← ApiM.liftE (elt.getItem "id")
      Resource.project <$> Project.initM api i .vnone .vnone .vnone .vnone)
  else
    ApiM.pure []

/-- `Task.tags`: GET `tasks/<id>/tags`, wrap each record as `Tag`. -/
def Task.tags (api : Api) (t : TaskState) : ApiM (List Resource) := do
  let jr ← Api.get api "tasks" (t.tid.pyStr ++ "/tags")
  let elts ← ApiM.liftE jr.iterate
  elts.mapM (fun elt => do
    let i ← ApiM.liftE (elt.getItem "id")
    Resource.tag <$> Tag.initM api i .vnone .vnone .vnone)

/-- `Task.subtasks`: GET `tasks/<id>/subtasks`, wrap each record as
`Task`. -/
def Task.subtasks (api : Api) (t : TaskState) : ApiM (List Resource) := do
  let jr ← Api.get api "tasks" (t.tid.pyStr ++ "/subtasks")
  let elts ← ApiM.liftE jr.iterate
  elts.mapM (fun elt => do
    let i ← ApiM.liftE (elt.getItem "id")
    Resource.task <$> Task.initM api i .vnone .vnone [])

/-- `Task.comments`: GET `tasks/<id>/stories`, wrap each record as
`Story`. -/
def Task.comments (api : Api) (t : TaskState) : ApiM (List Resource) := do
  let jr ← Api.get api "tasks" (t.tid.pyStr ++ "/stories")
  let elts ← ApiM.liftE jr.iterate
  elts.mapM (fun elt => do
    let i ← ApiM.liftE (elt.getItem "id")
    Resource.story <$> Story.initM api i)

/-- `Workspace.users`: GET `workspaces/<id>/users`, wrap as `User`. -/
def Workspace.users (api : Api) (w : WorkspaceState) : ApiM (List Resource) := do
  let jr ← Api.get api "workspaces" (w.wid.pyStr ++ "/users")
  let elts ← ApiM.liftE jr.iterate
  elts.mapM (fun elt => do
    let i ← ApiM.liftE (elt.getItem "id")
    Resource.user <$> User.initM api i)

/-- `Workspace.projects`: GET `workspaces/<id>/projects`, wrap as
`Project`. -/
def Workspace.projects (api : Api) (w : WorkspaceState) : ApiM (List Resource) := do
  let jr ← Api.get api "workspaces" (w.wid.pyStr ++ "/projects")
  let elts ← ApiM.liftE jr.iterate
  elts.mapM (fun elt => do
    let i ← ApiM.liftE (elt.getItem "id")
    Resource.project <$> Project.initM api i .vnone .vnone .vnone .vnone)

/-- `Workspace.tags`: GET `workspaces/<id>/tags`, wrap as `Tag`. -/
def Workspace.tags (api : Api) (w : WorkspaceState) : ApiM (List Resource) := do
  let jr ← Api.get api "workspaces" (w.wid.pyStr ++ "/tags")
  let elts ← ApiM.liftE jr.iterate
  elts.mapM (fun elt => do
    let i ← ApiM.liftE (elt.getItem "id")
    Resource.tag <$> Tag.initM api i .vnone .vnone .vnone)

/-- `Tag.workspace`: memoized.  On `self._workspace` being `None` (the
only falsy value the slot can hold), GET the tag record, construct a
`Workspace` (which performs its own GET), store it in the slot and return
it; afterwards return the stored object without any HTTP call.  The
updated tag state is returned alongside, making the mutation of the
memoization slot explicit. -/
def Tag.workspace (api : Api) (g : TagState) : ApiM (TagState × WorkspaceState) :=
  match g.gworkspace with
  | some w => pure (g, w)
  | none => do
    let jr ← Api.get api "tags" g.gid.pyStr
    let wv ← ApiM.liftE (jr.getItem "workspace")
    let i ← ApiM.liftE (wv.getItem "id")
    let w ← Workspace.initM api i
    pure ({ g with gworkspace := some w }, w)

/-- `Tag.followers`: GET the tag record, wrap `jr['followers']` elements
as `User`. -/
def Tag.followers (api : Api) (g : TagState) : ApiM (List Resource) := do
  let jr ← Api.get api "tags" g.gid.pyStr
  let fs ← ApiM.liftE (jr.getItem "followers")
  let elts ← ApiM.liftE fs.iterate
  elts.mapM (fun elt => do
    let i ← ApiM.liftE (elt.getItem "id")
    Resource.user <$> User.initM api i)

/-- `Tag.tasks`: GET `tags/<id>/tasks`; the source then iterates
`jr['tasks']` and wraps each element in `Tag(...)` — not `Task` — despite
its docstring promising Task objects. -/
def Tag.tasks (api : Api) (g : TagState) : ApiM (List Resource) := do
  let jr ← Api.get api "tags" (g.gid.pyStr ++ "/tasks")
  let ts ← ApiM.liftE (jr.getItem "tasks")
  let elts ← ApiM.liftE ts.iterate
  elts.mapM (fun elt => do
    let i ← ApiM.liftE (elt.getItem "id")
    Resource.tag <$> Tag.initM api i .vnone .vnone .vnone)

/-- `Project.workspace`: memoized exactly like `Tag.workspace`. -/
def Project.workspace (api : Api) (p : ProjectState) : ApiM (ProjectState × WorkspaceState) :=
  match p.pworkspace with
  | some w => pure (p, w)
  | none => do
    let jr ← Api.get api "projects" p.pid.pyStr
    let wv ← ApiM.liftE (jr.getItem "workspace")
    let i ← ApiM.liftE (wv.getItem "id")
    let w ← Workspace.initM api i
    pure ({ p with pworkspace := some w }, w)

/-- `Project.tasks`: GET `projects/<id>/tasks`, wrap as `Task`. -/
def Project.tasks (api : Api) (p : ProjectState) : ApiM (List Resource) := do
  let jr ← Api.get api "projects" (p.pid.pyStr ++ "/tasks")
  let elts ← ApiM.liftE jr.iterate
  elts.mapM (fun elt => do
    let i ← ApiM.liftE (elt.getItem "id")
    Resource.task <$> Task.initM api i .vnone .vnone [])

/-- `Project.followers`: GET the project record, wrap `jr['followers']`
elements as `User`. -/
def Project.followers (api : Api) (p : ProjectState) : ApiM (List Resource) := do
  let jr ← Api.get api "projects" p.pid.pyStr
  let fs ← ApiM.liftE (jr.getItem "followers")
  let elts ← ApiM.liftE fs.iterate
  elts.mapM (fun elt => do
    let i ← ApiM.liftE (elt.getItem "id")
    Resource.user <$> User.initM api i)

/-- `Project.comments`: GET `projects/<id>/stories`, wrap as `Story`. -/
def Project.comments (api : Api) (p : ProjectState) : ApiM (List Resource) := do
  let jr ← Api.get api "projects" (p.pid.pyStr ++ "/stories")
  let elts ← ApiM.liftE jr.iterate
  elts.mapM (fun elt => do
    let i ← ApiM.liftE (elt.getItem "id")
    Resource.story <$> Story.initM api i)

/-- `Story.created_by`: GET the story record, wrap
`jr['created_by']['id']` as `User`. -/
def Story.created_by (api : Api) (s : StoryState) : ApiM Resource := do
  let jr ← Api.get api "stories" s.sid.pyStr
  let cb ← ApiM.liftE (jr.getItem "created_by")
  let i ← ApiM.liftE (cb.getItem "id")
  Resource.user <$> User.initM api i

/-- `Task.name` setter: PUT `{'name': name}` to `tasks/<id>`, then update
the local attribute. -/
def Task.set_name (api : Api) (t : TaskState) (v : PyVal) : ApiM TaskState := do
  let _ ← Api.put api "tasks" t.tid.pyStr [("name", v)]
  ApiM.pure { t with tname := v }

/-- `Task.notes` setter: PUT `{'notes': notes}`, then update locally. -/
def Task.set_notes (api : Api) (t : TaskState) (v : PyVal) : ApiM TaskState := do
  let _ ← Api.put api "tasks" t.tid.pyStr [("notes", v)]
  ApiM.pure { t with tnotes := v }

/-- `Task.completed` setter: PUT `{'completed': completed}`, then update
locally. -/
def Task.set_completed (api : Api) (t : TaskState) (v : PyVal) : ApiM TaskState := do
  let _ ← Api.put api "tasks" t.tid.pyStr [("completed", v)]
  ApiM.pure { t with tcompleted := v }

/-- The `ok_status` membership test in the `assignee_status` setter
(`'upcoming'` is listed twice in the source). -/
def assigneeStatusOk (v : PyVal) : Bool :=
  match v with
  | .vstr s => s ∈ ["upcoming", "inbox", "later", "today", "upcoming"]
  | _ => false

/-- `Task.assignee_status` setter: validate against `ok_status`, then PUT
`{'status': status}` — the body key is the literal `status`, not the
attribute name `assignee_status` — then update locally. -/
def Task.set_assignee_status (api : Api) (t : TaskState) (v : PyVal) : ApiM TaskState :=
  if !assigneeStatusOk v then
    ApiM.liftE (.error (.asanaError
      "status must be one of \x7bupcoming,inbox,later,today,upcoming\x7d"))
  else do
    let _ ← Api.put api "tasks" t.tid.pyStr [("status", v)]
    ApiM.pure { t with tassignee_status := v }

/-- `Task.assignee` setter, with fuel.  The source reads `user.id`
(raising the domain error when the argument has no `id`), PUTs
`{'assignee': user_id}`, and then executes `self.assignee = user`, which
re-enters this very setter with the same argument; each level of fuel is
one pass.  Exhausted fuel returns `none` in the first component; the
second component is the request trace of the passes made. -/
def Task.set_assignee_fuel (api : Api) (t : TaskState) (user : UserState) :
    Nat → Option (Except PyError TaskState) × List Request
  | 0 => (none, [])
  | n + 1 =>
    let req : Request := ⟨.PUT, "tasks", t.tid.pyStr, [("assignee", user.uid)]⟩
    match processResponse (api.server req) with
    | .error e => (some (.error e), [req])
    | .ok _ =>
      let rest := Task.set_assignee_fuel api t user n
      (rest.1, req :: rest.2)

/-- `Workspace.name` setter. -/
def Workspace.set_name (api : Api) (w : WorkspaceState) (v : PyVal) : ApiM WorkspaceState := do
  let _ ← Api.put api "workspaces" w.wid.pyStr [("name", v)]
  ApiM.pure { w with wname := v }

/-- `Tag.name` setter. -/
def Tag.set_name (api : Api) (g : TagState) (v : PyVal) : ApiM TagState := do
  let _ ← Api.put api "tags" g.gid.pyStr [("name", v)]
  ApiM.pure { g with gname := v }

/-- `Tag.notes` setter. -/
def Tag.set_notes (api : Api) (g : TagState) (v : PyVal) : ApiM TagState := do
  let _ ← Api.put api "tags" g.gid.pyStr [("notes", v)]
  ApiM.pure { g with gnotes := v }

/-- `Project.name` setter. -/
def Project.set_name (api : Api) (p : ProjectState) (v : PyVal) : ApiM ProjectState := do
  let _ ← Api.put api "projects" p.pid.pyStr [("name", v)]
  ApiM.pure { p with pname := v }

/-- `Project.notes` setter. -/
def Project.set_notes (api : Api) (p : ProjectState) (v : PyVal) : ApiM ProjectState := do
  let _ ← Api.put api "projects" p.pid.pyStr [("notes", v)]
  ApiM.pure { p with pnotes := v }

/-- `Project.archived` setter. -/
def Project.set_archived (api : Api) (p : ProjectState) (v : PyVal) : ApiM ProjectState := do
  let _ ← Api.put api "projects" p.pid.pyStr [("archived", v)]
  ApiM.pure { p with parchived := v }

/-- A Python object as passed to `Task._change_obj`: either a plain value
or a resource-class instance.  (`isinstance(x, int)` is true for bools in
Python; floats and the remaining values fail both isinstance checks.) -/
inductive PyObj where
  | val (v : PyVal)
  | tagObj (g : TagState)
  | projectObj (p : ProjectState)
  | userObj (u : UserState)

/-- `isinstance(arg, int)` — bools included. -/
def PyObj.isinst_int : PyObj → Bool
  | .val (.vint _) => true
  | .val (.vbool _) => true
  | _ => false

/-- `isinstance(arg, str)`. -/
def PyObj.isinst_str : PyObj → Bool
  | .val (.vstr _) => true
  | _ => false

/-- The raw value of a plain argument (only consulted after an
isinstance check selected the first branch). -/
def PyObj.rawVal : PyObj → PyVal
  | .val v => v
  | .tagObj _ => .vnone
  | .projectObj _ => .vnone
  | .userObj _ => .vnone

/-- `Task._change_obj(arg, endpoint, datatype)`: ints and strings post
their own value; a `Tag` (when `datatype == 'tag'`) or a `Project` (when
`datatype == 'project'`) posts its `id`; everything else raises the
domain error before any HTTP call. -/
def Task.change_obj (api : Api) (arg : PyObj) (endpoint datatype : String) : ApiM Unit :=
  if arg.isinst_int || arg.isinst_str then do
    let _ ← Api.post api "tasks" endpoint [(datatype, arg.rawVal)]
    ApiM.pure ()
  else
    match arg with
    | .tagObj g =>
      if datatype == "tag" then do
        let _ ← Api.post api "tasks" endpoint [(datatype, g.gid)]
        ApiM.pure ()
      else
        ApiM.liftE (.error (.asanaError ("Requires an int, str, or " ++ datatype)))
    | .projectObj p =>
      if datatype == "project" then do
        let _ ← Api.post api "tasks" endpoint [(datatype, p.pid)]
        ApiM.pure ()
      else
        ApiM.liftE (.error (.asanaError ("Requires an int, str, or " ++ datatype)))
    | _ =>
      ApiM.liftE (.error (.asanaError ("Requires an int, str, or " ++ datatype)))

/-- `Task.add_project`. -/
def Task.add_project (api : Api) (t : TaskState) (project : PyObj) : ApiM Unit :=
  Task.change_obj api project (t.tid.pyStr ++ "/addProject") "project"

/-- `Task.remove_project`. -/
def Task.remove_project (api : Api) (t : TaskState) (project : PyObj) : ApiM Unit :=
  Task.change_obj api project (t.tid.pyStr ++ "/removeProject") "project"

/-- `Task.add_tag`. -/
def Task.add_tag (api : Api) (t : TaskState) (tg : PyObj) : ApiM Unit :=
  Task.change_obj api tg (t.tid.pyStr ++ "/addTag") "tag"

/-- `Task.remove_tag`. -/
def Task.remove_tag (api : Api) (t : TaskState) (tg : PyObj) : ApiM Unit :=
  Task.change_obj api tg (t.tid.pyStr ++ "/removeTag") "tag"

/-- `Task.add_subtask(**kwargs)`: forwards the parameters as the single
keyword argument literally named `kwargs`, so the `Task` constructor sees
the keyword dictionary `{'kwargs': kwargs}`. -/
def Task.add_subtask (api : Api) (t : TaskState) (kwargs : List (String × PyVal)) :
    ApiM TaskState :=
  Task.initM api .vnone .vnone t.tid [("kwargs", .vdict kwargs)]

/-- `Workspace.create_project(name, notes, archived=False)`. -/
def Workspace.create_project (api : Api) (w : WorkspaceState) (name notes archived : PyVal) :
    ApiM ProjectState :=
  Project.initM api .vnone w.wid name notes archived

/-- `Workspace.create_tag(name, notes)`. -/
def Workspace.create_tag (api : Api) (w : WorkspaceState) (name notes : PyVal) :
    ApiM TagState :=
  Tag.initM api .vnone w.wid name notes

/-- `Workspace.create_task(**kwargs)`: forwards the parameters as the
single keyword argument literally named `kwargs`, exactly like
`Task.add_subtask`. -/
def Workspace.create_task (api : Api) (w : WorkspaceState) (kwargs : List (String × PyVal)) :
    ApiM TaskState :=
  Task.initM api .vnone w.wid .vnone [("kwargs", .vdict kwargs)]

/-- Test for `Tag` instances (`isinstance(arg, Tag)`). -/
def PyObj.isTagInstance : PyObj → Bool
  | .tagObj _ => true
  | _ => false

/-- Test for `Project` instances (`isinstance(arg, Project)`). -/
def PyObj.isProjectInstance : PyObj → Bool
  | .projectObj _ => true
  | _ => false

/-- Whether a result is a raised domain error (`AsanaError`), as opposed
to success or some other interpreter exception. -/
def isDomainFailure : Except PyError α → Bool
  | .error (.asanaError _) => true
  | _ => false

/-- Whether an optional-relationship result delivered a `Task` object. -/
def optionalIsTask : Except PyError (Option Resource) → Bool
  | .ok (some r) => r.isTask
  | _ => false

/-- Whether an optional-relationship result delivered a `User` object. -/
def optionalIsUser : Except PyError (Option Resource) → Bool
  | .ok (some r) => r.isUser
  | _ => false

/-- Whether a collection result delivered a nonempty list consisting
entirely of `Tag` objects. -/
def listAllTags : Except PyError (List Resource) → Bool
  | .ok l => !l.isEmpty && l.all Resource.isTag
  | _ => false

/-- Whether a collection result delivered any `Task` object. -/
def listAnyTask : Except PyError (List Resource) → Bool
  | .ok l => l.any Resource.isTask
  | _ => false

/-- Whether a request's form payload contains the field `k`. -/
def Request.hasKey (r : Request) (k : String) : Bool :=
  r.data.any (fun p => p.1 == k)

/-- A successful JSON response whose envelope's `data` field is `v`. -/
def jsonOk (v : PyVal) : HttpResponse :=
  ⟨200, "application/json", some (.vdict [("data", v)])⟩

/-- A server that answers every request with an empty-record success. -/
def okServerApi : Api := ⟨fun _ => jsonOk (.vdict [])⟩

/-- A concrete task used to exercise the mutators. -/
def task7 : TaskState :=
  ⟨.vint 7, .vstr "old", .vstr "", .vstr "inbox", .vnone, .vnone, .vnone,
   .vbool false, .vnone, .vlist [], .vlist [], none⟩

/-- A concrete user. -/
def user2 : UserState := ⟨.vint 2, .vstr "Bob", .vstr "bob@example.com"⟩

/-- A concrete workspace. -/
def workspace3 : WorkspaceState := ⟨.vint 3, .vstr "Eng"⟩

/-- A concrete tag with an empty memoization slot. -/
def tag5 : TagState := ⟨.vint 5, .vstr "urgent", .vstr "", .vnone, none⟩

/-- A concrete project with an empty memoization slot. -/
def project4 : ProjectState :=
  ⟨.vint 4, .vstr "Site", .vstr "", .vbool false, .vnone, .vnone, none⟩

/-- A concrete story. -/
def story6 : StoryState := ⟨.vint 6, .vstr "hi", .vnone, .vstr "comment", .vnone⟩

/-- A server that answers every request with a 404 HTML page whose body
is not valid JSON. -/
def htmlNotFoundApi : Api := ⟨fun _ => ⟨404, "text/html", none⟩⟩

/-- A server for exercising the relationship wrappers: task 1 has a
parent record with id 2, task 3 has a null parent, user 2 exists, and the
`tags/5/tasks` listing holds the record with id 9, whose tag record is
also served with a parseable timestamp. -/
def relationApi : Api := ⟨fun req =>
  match req.resource, req.endpoint with
  | "tasks", "1" => jsonOk (.vdict [("parent", .vdict [("id", .vint 2)])])
  | "tasks", "3" => jsonOk (.vdict [("parent", .vnone)])
  | "users", "2" => jsonOk (.vdict
      [("name", .vstr "Bob"), ("email", .vstr "bob@example.com"), ("id", .vint 2)])
  | "tags", "5/tasks" => jsonOk (.vdict [("tasks", .vlist [.vdict [("id", .vint 9)]])])
  | "tags", "9" => jsonOk (.vdict
      [("id", .vint 9), ("name", .vstr "urgent"), ("notes", .vstr ""),
       ("created_at", .vstr "2012-02-22T02:06:58.147Z")])
  | _, _ => jsonOk .vnone⟩

/-- Task 1 (parent present on the server). -/
def task1 : TaskState := { task7 with tid := .vint 1 }

/-- Task 3 (parent null on the server). -/
def task3 : TaskState := { task7 with tid := .vint 3 }

/-- A server for the memoized workspace accessors: tag 5 and project 4
belong to workspace 2. -/
def memoApi : Api := ⟨fun req =>
  match req.resource, req.endpoint with
  | "tags", "5" => jsonOk (.vdict [("workspace", .vdict [("id", .vint 2)])])
  | "projects", "4" => jsonOk (.vdict [("workspace", .vdict [("id", .vint 2)])])
  | "workspaces", "2" => jsonOk (.vdict [("id", .vint 2), ("name", .vstr "Eng")])
  | _, _ => jsonOk .vnone⟩

@[simp] theorem exceptBind_ok (a : α) (f : α → Except PyError β) :
    (Except.ok a >>= f) = f a := rfl

@[simp] theorem exceptBind_error (e : PyError) (f : α → Except PyError β) :
    ((Except.error e : Except PyError α) >>= f) = Except.error e := rfl

@[simp] theorem ApiM.bind_eq (x : ApiM α) (f : α → ApiM β) :
    x >>= f = ApiM.bind x f := rfl

@[simp] theorem ApiM.pure_eq (a : α) : (Pure.pure a : ApiM α) = ApiM.pure a := rfl

@[simp] theorem ApiM.map_eq (f : α → β) (x : ApiM α) :
    f <$> x = ApiM.bind x (fun a => ApiM.pure (f a)) := rfl

@[simp] theorem ApiM.bind_ok (a : α) (tr : List Request) (f : α → ApiM β) :
    ApiM.bind (.ok a, tr) f = ((f a).1, tr ++ (f a).2) := rfl

@[simp] theorem ApiM.bind_error (e : PyError) (tr : List Request) (f : α → ApiM β) :
    ApiM.bind ((.error e : Except PyError α), tr) f = (.error e, tr) := rfl

/-- The trace of an HTTP call followed by a pure step is the call's own
request, whether or not the call succeeds. -/
theorem ApiM.bind_liftE_trace (x : ApiM α) (f : α → Except PyError β) :
    (ApiM.bind x (fun a => ApiM.liftE (f a))).2 = x.2 := by
  obtain ⟨r, tr⟩ := x
  cases r <;> simp [ApiM.bind, ApiM.liftE]

/-- An accessor that begins with `api.get` always issues that GET first,
whatever follows. -/
theorem ApiM.bind_get_head (api : Api) (r e : String) (k : PyVal → ApiM α) :
    (ApiM.bind (Api.get api r e) k).2.head? = some ⟨.GET, r, e, []⟩ := by
  cases h : processResponse (api.server ⟨.GET, r, e, []⟩) <;>
    simp [Api.get, ApiM.bind, h]

/-- The trace of a PUT followed by the optimistic local update is exactly
that PUT, whether or not it succeeds; on success the result is the
updated state. -/
theorem ApiM.put_then_update {σ : Type} (api : Api) (r e : String)
    (d : List (String × PyVal)) (s : σ) (jr : PyVal)
    (h : processResponse (api.server ⟨.PUT, r, e, d⟩) = .ok jr) :
    ApiM.bind (Api.put api r e d) (fun _ => ApiM.pure s) =
      (.ok s, [⟨.PUT, r, e, d⟩]) := by
  simp [Api.put, ApiM.bind, ApiM.pure, h]

/-- The trace of a POST followed by a pure step is exactly that POST. -/
theorem ApiM.post_then_unit_trace (api : Api) (r e : String)
    (d : List (String × PyVal)) :
    (ApiM.bind (Api.post api r e d) (fun _ => ApiM.pure ())).2 = [⟨.POST, r, e, d⟩] := by
  cases h : processResponse (api.server ⟨.POST, r, e, d⟩) <;>
    simp [Api.post, ApiM.bind, ApiM.pure, h]

/-- A 404 response with a JSON error body, as in the spec's example. -/
def resp404 : HttpResponse :=
  ⟨404, "application/json",
   some (.vdict [("errors", .vlist [.vdict [("message", .vstr "not found")]])])⟩

/-- A 500 response with a JSON error body carrying both `message` and
`phrase`. -/
def resp500 : HttpResponse :=
  ⟨500, "application/json",
   some (.vdict [("errors",
     .vlist [.vdict [("message", .vstr "boom"), ("phrase", .vstr "under load")]])])⟩

/-- C2: constructing a Task, Tag, or Project with more than one truthy id
among \x7bexisting id, workspace id, parent task id\x7d raises the domain
error with an empty request trace, i.e. before any HTTP call. -/
theorem c2_conflicting_construction_ids :
    (∀ (api : Api) (a b c : PyVal) (kw : List (String × PyVal)),
      ((a.truthy && b.truthy) || (b.truthy && c.truthy) || (a.truthy && c.truthy)) = true →
      Task.initM api a b c kw =
        (.error (.asanaError
          "A Task must be created with exactly one of task_id, workspace_id, or parent_id"),
         [])) ∧
    (∀ (api : Api) (a b nm no : PyVal),
      a.truthy = true → b.truthy = true →
      Tag.initM api a b nm no =
        (.error (.asanaError "Requires a tag_id or workspace_id (not both)."), [])) ∧
    (∀ (api : Api) (a b nm no ar : PyVal),
      a.truthy = true → b.truthy = true →
      Project.initM api a b nm no ar =
        (.error (.asanaError "Bad Arguments"), [])) := by
  refine ⟨?_, ?_, ?_⟩
  · intro api a b c kw h
    simp [Task.initM, h, ApiM.liftE]
  · intro api a b nm no h1 h2
    simp [Tag.initM, h1, h2, ApiM.liftE]
  · intro api a b nm no ar h1 h2
    simp [Project.initM, h1, h2, ApiM.liftE]

/-- C2 witness: concrete conflicting constructions. -/
theorem c2_conflicting_construction_ids_witness :
    Task.initM okServerApi (.vint 1) (.vint 2) .vnone [] =
      (.error (.asanaError
        "A Task must be created with exactly one of task_id, workspace_id, or parent_id"),
       []) ∧
    Tag.initM okServerApi (.vint 1) (.vint 2) .vnone .vnone =
      (.error (.asanaError "Requires a tag_id or workspace_id (not both)."), []) ∧
    Project.initM okServerApi (.vint 1) (.vint 2) .vnone .vnone .vnone =
      (.error (.asanaError "Bad Arguments"), []) :=
  ⟨c2_conflicting_construction_ids.1 okServerApi (.vint 1) (.vint 2) .vnone [] rfl,
   c2_conflicting_construction_ids.2.1 okServerApi (.vint 1) (.vint 2) .vnone .vnone rfl rfl,
   c2_conflicting_construction_ids.2.2 okServerApi (.vint 1) (.vint 2) .vnone .vnone .vnone
     rfl rfl⟩

/-- C3: 200 and 201 pass the status check; 400-class statuses raise the
domain error carrying the server's message (the spec's 404 example); but
a 500 status evaluates the undefined name `ph` while formatting, so it
raises `NameError`, not the domain error carrying message and phrase that
the claim describes. -/
theorem c3_status_check_500_raises_name_error :
    checkHttpStatus ⟨200, "application/json", none⟩ = .ok () ∧
    checkHttpStatus ⟨201, "text/html", none⟩ = .ok () ∧
    checkHttpStatus resp404 =
      .error (.asanaError "Error: HTTP Status 404: not found") ∧
    checkHttpStatus resp500 = .error (.nameError "ph") ∧
    isDomainFailure (checkHttpStatus resp500) = false :=
  ⟨rfl, rfl, rfl, rfl, rfl⟩

/-- C4: on a server with a parent record on task 1, a null parent on
task 3, and a task listing under tag 5, `Task.parent` wraps the parent in
`User` — not `Task` as the data model says — while `Tag.tasks` wraps its
records in `Tag` — not `Task`, contradicting its own docstring; the
optional relationship does return `None` when the field is null. -/
theorem c4_wrong_wrapper_classes :
    (Task.parent relationApi task1).1 =
      .ok (some (Resource.user ⟨.vint 2, .vstr "Bob", .vstr "bob@example.com"⟩)) ∧
    optionalIsUser (Task.parent relationApi task1).1 = true ∧
    optionalIsTask (Task.parent relationApi task1).1 = false ∧
    (Task.parent relationApi task3).1 = .ok none ∧
    (Tag.tasks relationApi tag5).1 =
      .ok [Resource.tag ⟨.vint 9, .vstr "urgent", .vstr "",
        .vdatetime ⟨2012, 2, 22, 2, 6, 58, 147000⟩, none⟩] ∧
    listAllTags (Tag.tasks relationApi tag5).1 = true ∧
    listAnyTask (Tag.tasks relationApi tag5).1 = false :=
  ⟨rfl, rfl, rfl, rfl, rfl, rfl, rfl⟩

/-- C5: for every User argument, when the PUT succeeds the assignee
setter never produces a result however much fuel it is given, and each
pass issues one more copy of the same PUT: the setter is not a
terminating function. -/
theorem c5_assignee_setter_never_terminates :
    ∀ (api : Api) (t : TaskState) (u : UserState) (jr : PyVal),
      processResponse (api.server ⟨.PUT, "tasks", t.tid.pyStr, [("assignee", u.uid)]⟩) =
        .ok jr →
      ∀ n : Nat,
        (Task.set_assignee_fuel api t u n).1 = none ∧
        (Task.set_assignee_fuel api t u n).2.length = n := by
  intro api t u jr h n
  induction n with
  | zero => exact ⟨rfl, rfl⟩
  | succ n ih =>
    refine ⟨?_, ?_⟩ <;> simp [Task.set_assignee_fuel, h, ih.1, ih.2]

/-- C5 witness: three passes on a concrete task yield no result and three
PUTs. -/
theorem c5_assignee_setter_never_terminates_witness :
    (Task.set_assignee_fuel okServerApi task7 user2 3).1 = none ∧
    (Task.set_assignee_fuel okServerApi task7 user2 3).2.length = 3 :=
  c5_assignee_setter_never_terminates okServerApi task7 user2 (.vdict []) rfl 3

/-- C8 (amended): each transport method applies the status check and
then the response handler to the server's response; for a success status
(200 or 201) whose content-type does not declare `application/json`, the
domain error is raised; but for an error status such as 404 the status
check runs first and tries to parse the error body, so a non-JSON 404
response raises `TypeError` (from subscripting `None`) and the
content-type check is never reached. -/
theorem c8_content_type_amended :
    (∀ (api : Api) (res ep : String),
      (Api.get api res ep).1 = processResponse (api.server ⟨.GET, res, ep, []⟩)) ∧
    (∀ (api : Api) (res ep : String) (d : List (String × PyVal)),
      (Api.post api res ep d).1 = processResponse (api.server ⟨.POST, res, ep, d⟩)) ∧
    (∀ (api : Api) (res ep : String) (d : List (String × PyVal)),
      (Api.put api res ep d).1 = processResponse (api.server ⟨.PUT, res, ep, d⟩)) ∧
    (∀ r : HttpResponse,
      (r.status = 200 ∨ r.status = 201) →
      ((splitChar r.contentType ';').headD "" == "application/json") = false →
      processResponse r =
        .error (.asanaError ("Did not receive json from api: " ++ r.pyStr))) ∧
    (∀ r : HttpResponse,
      r.status = 404 → r.json = none →
      processResponse r = .error (.typeError "NoneType object is not subscriptable")) := by
  refine ⟨fun _ _ _ => rfl, fun _ _ _ _ => rfl, fun _ _ _ _ => rfl, ?_, ?_⟩
  · intro r h1 h2
    have hc : checkHttpStatus r = .ok () := by
      rcases h1 with h1 | h1 <;> (unfold checkHttpStatus; rw [h1]; rfl)
    unfold processResponse handleResponse
    rw [hc, h2]
    rfl
  · intro r h1 h2
    unfold processResponse checkHttpStatus jsonGet
    rw [h1, h2]
    rfl

/-- C8 counterexample: a 404 response with content-type `text/html` and a
non-JSON body makes the transport GET raise `TypeError`, not the domain
error the claim requires for every status. -/
theorem c8_content_type_counterexample :
    (Api.get htmlNotFoundApi "tasks" "1").1 =
      .error (.typeError "NoneType object is not subscriptable") ∧
    isDomainFailure (Api.get htmlNotFoundApi "tasks" "1").1 = false :=
  ⟨rfl, rfl⟩

/-- C8 witness: a 200 response with content-type `text/plain` raises the
domain error; a 404 response with a non-JSON body raises `TypeError`. -/
theorem c8_content_type_witness :
    processResponse ⟨200, "text/plain", none⟩ =
      .error (.asanaError "Did not receive json from api: <Response [200]>") ∧
    processResponse ⟨404, "text/html", none⟩ =
      .error (.typeError "NoneType object is not subscriptable") :=
  ⟨c8_content_type_amended.2.2.2.1 ⟨200, "text/plain", none⟩ (Or.inl rfl) rfl,
   c8_content_type_amended.2.2.2.2 ⟨404, "text/html", none⟩ rfl rfl⟩

/-- C9: constructing a Tag or a Project with neither an existing id nor a
workspace id leaves `jr` unassigned, so the populate line raises
`UnboundLocalError` — an interpreter error, not the domain error — while
the Task constructor raises the domain error in the same situation. -/
theorem c9_missing_ids_raise_unbound_local :
    (∀ api : Api,
      Tag.initM api .vnone .vnone .vnone .vnone =
        (.error (.unboundLocalError "jr"), [])) ∧
    (∀ api : Api,
      Project.initM api .vnone .vnone .vnone .vnone .vnone =
        (.error (.unboundLocalError "jr"), [])) ∧
    isDomainFailure ((Except.error (PyError.unboundLocalError "jr") :
      Except PyError TagState)) = false ∧
    (∀ api : Api,
      Task.initM api .vnone .vnone .vnone [] =
        (.error (.asanaError "Bug encountered."), [])) :=
  ⟨fun _ => rfl, fun _ => rfl, rfl, fun _ => rfl⟩

/-- C10: `Workspace.create_task` and `Task.add_subtask` hand the Task
constructor the keyword dictionary `\x7b'kwargs': params\x7d`, and the
resulting POST payload carries the whole parameter dictionary under the
single key `kwargs` (next to `workspace` for workspace creation) instead
of the individual creation attributes. -/
theorem c10_kwargs_forwarded_literally :
    (∀ (api : Api) (w : WorkspaceState) (kw : List (String × PyVal)),
      Workspace.create_task api w kw =
        Task.initM api .vnone w.wid .vnone [("kwargs", .vdict kw)]) ∧
    (∀ (api : Api) (t : TaskState) (kw : List (String × PyVal)),
      Task.add_subtask api t kw =
        Task.initM api .vnone .vnone t.tid [("kwargs", .vdict kw)]) ∧
    (∀ (api : Api) (w : WorkspaceState) (kw : List (String × PyVal)),
      w.wid.truthy = true →
      (Workspace.create_task api w kw).2 =
        [⟨.POST, "tasks", "", [("workspace", w.wid), ("kwargs", .vdict kw)]⟩]) ∧
    (∀ (api : Api) (t : TaskState) (kw : List (String × PyVal)),
      t.tid.truthy = true →
      (Task.add_subtask api t kw).2 =
        [⟨.POST, "tasks", t.tid.pyStr ++ "/subtasks", [("kwargs", .vdict kw)]⟩]) := by
  refine ⟨fun _ _ _ => rfl, fun _ _ _ => rfl, ?_, ?_⟩
  · intro api w kw h
    show (Task.initM api .vnone w.wid .vnone [("kwargs", .vdict kw)]).2 = _
    unfold Task.initM
    rw [show PyVal.truthy .vnone = false from rfl, h]
    simp [ApiM.bind_liftE_trace, Api.post]
  · intro api t kw h
    show (Task.initM api .vnone .vnone t.tid [("kwargs", .vdict kw)]).2 = _
    unfold Task.initM
    rw [show PyVal.truthy .vnone = false from rfl, h]
    simp [ApiM.bind_liftE_trace, Api.post]

/-- A successful JSON envelope passes the transport checks and unwraps
to its `data` field. -/
theorem processResponse_jsonOk (v : PyVal) : processResponse (jsonOk v) = .ok v := rfl

/-- C6 (amended): on a Tag or Project whose memoization slot is empty,
the workspace property issues the GET of the resource's own record
followed by the GET performed by the Workspace constructor — two GETs,
not one — and stores the resulting Workspace; on a filled slot it returns
the stored object with no HTTP call; and every other relationship
accessor of every resource type begins every access with a fresh GET of
its endpoint, whatever the state. -/
theorem c6_workspace_memoized_amended :
    (∀ (api : Api) (g : TagState) (wid i nm : PyVal),
      g.gworkspace = none →
      api.server ⟨.GET, "tags", g.gid.pyStr, []⟩ =
        jsonOk (.vdict [("workspace", .vdict [("id", wid)])]) →
      api.server ⟨.GET, "workspaces", wid.pyStr, []⟩ =
        jsonOk (.vdict [("id", i), ("name", nm)]) →
      Tag.workspace api g =
        (.ok ({ g with gworkspace := some ⟨i, nm⟩ }, (⟨i, nm⟩ : WorkspaceState)),
         [⟨.GET, "tags", g.gid.pyStr, []⟩, ⟨.GET, "workspaces", wid.pyStr, []⟩])) ∧
    (∀ (api : Api) (g : TagState) (w : WorkspaceState),
      g.gworkspace = some w →
      Tag.workspace api g = (.ok (g, w), [])) ∧
    (∀ (api : Api) (p : ProjectState) (wid i nm : PyVal),
      p.pworkspace = none →
      api.server ⟨.GET, "projects", p.pid.pyStr, []⟩ =
        jsonOk (.vdict [("workspace", .vdict [("id", wid)])]) →
      api.server ⟨.GET, "workspaces", wid.pyStr, []⟩ =
        jsonOk (.vdict [("id", i), ("name", nm)]) →
      Project.workspace api p =
        (.ok ({ p with pworkspace := some ⟨i, nm⟩ }, (⟨i, nm⟩ : WorkspaceState)),
         [⟨.GET, "projects", p.pid.pyStr, []⟩, ⟨.GET, "workspaces", wid.pyStr, []⟩])) ∧
    (∀ (api : Api) (p : ProjectState) (w : WorkspaceState),
      p.pworkspace = some w →
      Project.workspace api p = (.ok (p, w), [])) ∧
    (∀ (api : Api) (u : UserState),
      (User.workspaces api u).2.head? = some ⟨.GET, "users", u.uid.pyStr, []⟩) ∧
    (∀ (api : Api) (t : TaskState),
      (Task.parent api t).2.head? = some ⟨.GET, "tasks", t.tid.pyStr, []⟩) ∧
    (∀ (api : Api) (t : TaskState),
      (Task.workspace api t).2.head? = some ⟨.GET, "tasks", t.tid.pyStr, []⟩) ∧
    (∀ (api : Api) (t : TaskState),
      (Task.assignee api t).2.head? = some ⟨.GET, "tasks", t.tid.pyStr, []⟩) ∧
    (∀ (api : Api) (t : TaskState),
      (Task.followers api t).2.head? = some ⟨.GET, "tasks", t.tid.pyStr, []⟩) ∧
    (∀ (api : Api) (t : TaskState),
      (Task.projects api t).2.head? = some ⟨.GET, "tasks", t.tid.pyStr, []⟩) ∧
    (∀ (api : Api) (t : TaskState),
      (Task.tags api t).2.head? = some ⟨.GET, "tasks", t.tid.pyStr ++ "/tags", []⟩) ∧
    (∀ (api : Api) (t : TaskState),
      (Task.subtasks api t).2.head? = some ⟨.GET, "tasks", t.tid.pyStr ++ "/subtasks", []⟩) ∧
    (∀ (api : Api) (t : TaskState),
      (Task.comments api t).2.head? = some ⟨.GET, "tasks", t.tid.pyStr ++ "/stories", []⟩) ∧
    (∀ (api : Api) (w : WorkspaceState),
      (Workspace.users api w).2.head? =
        some ⟨.GET, "workspaces", w.wid.pyStr ++ "/users", []⟩) ∧
    (∀ (api : Api) (w : WorkspaceState),
      (Workspace.projects api w).2.head? =
        some ⟨.GET, "workspaces", w.wid.pyStr ++ "/projects", []⟩) ∧
    (∀ (api : Api) (w : WorkspaceState),
      (Workspace.tags api w).2.head? =
        some ⟨.GET, "workspaces", w.wid.pyStr ++ "/tags", []⟩) ∧
    (∀ (api : Api) (g : TagState),
      (Tag.followers api g).2.head? = some ⟨.GET, "tags", g.gid.pyStr, []⟩) ∧
    (∀ (api : Api) (g : TagState),
      (Tag.tasks api g).2.head? = some ⟨.GET, "tags", g.gid.pyStr ++ "/tasks", []⟩) ∧
    (∀ (api : Api) (p : ProjectState),
      (Project.tasks api p).2.head? =
        some ⟨.GET, "projects", p.pid.pyStr ++ "/tasks", []⟩) ∧
    (∀ (api : Api) (p : ProjectState),
      (Project.followers api p).2.head? = some ⟨.GET, "projects", p.pid.pyStr, []⟩) ∧
    (∀ (api : Api) (p : ProjectState),
      (Project.comments api p).2.head? =
        some ⟨.GET, "projects", p.pid.pyStr ++ "/stories", []⟩) ∧
    (∀ (api : Api) (s : StoryState),
      (Story.created_by api s).2.head? = some ⟨.GET, "stories", s.sid.pyStr, []⟩) := by
  refine ⟨?_, ?_, ?_, ?_,
    fun api u => ApiM.bind_get_head api "users" u.uid.pyStr _,
    fun api t => ApiM.bind_get_head api "tasks" t.tid.pyStr _,
    fun api t => ApiM.bind_get_head api "tasks" t.tid.pyStr _,
    fun api t => ApiM.bind_get_head api "tasks" t.tid.pyStr _,
    fun api t => ApiM.bind_get_head api "tasks" t.tid.pyStr _,
    fun api t => ApiM.bind_get_head api "tasks" t.tid.pyStr _,
    fun api t => ApiM.bind_get_head api "tasks" (t.tid.pyStr ++ "/tags") _,
    fun api t => ApiM.bind_get_head api "tasks" (t.tid.pyStr ++ "/subtasks") _,
    fun api t => ApiM.bind_get_head api "tasks" (t.tid.pyStr ++ "/stories") _,
    fun api w => ApiM.bind_get_head api "workspaces" (w.wid.pyStr ++ "/users") _,
    fun api w => ApiM.bind_get_head api "workspaces" (w.wid.pyStr ++ "/projects") _,
    fun api w => ApiM.bind_get_head api "workspaces" (w.wid.pyStr ++ "/tags") _,
    fun api g => ApiM.bind_get_head api "tags" g.gid.pyStr _,
    fun api g => ApiM.bind_get_head api "tags" (g.gid.pyStr ++ "/tasks") _,
    fun api p => ApiM.bind_get_head api "projects" (p.pid.pyStr ++ "/tasks") _,
    fun api p => ApiM.bind_get_head api "projects" p.pid.pyStr _,
    fun api p => ApiM.bind_get_head api "projects" (p.pid.pyStr ++ "/stories") _,
    fun api s => ApiM.bind_get_head api "stories" s.sid.pyStr _⟩
  · intro api g wid i nm hc h1 h2
    unfold Tag.workspace
    rw [hc]
    simp only [ApiM.bind_eq, ApiM.pure_eq, Api.get, Workspace.initM, h1, h2,
      processResponse_jsonOk]
    simp [ApiM.bind, ApiM.liftE, ApiM.pure, PyVal.getItem, Workspace.populate, h2,
      processResponse_jsonOk]
  · intro api g w h
    unfold Tag.workspace
    rw [h]
    rfl
  · intro api p wid i nm hc h1 h2
    unfold Project.workspace
    rw [hc]
    simp only [ApiM.bind_eq, ApiM.pure_eq, Api.get, Workspace.initM, h1, h2,
      processResponse_jsonOk]
    simp [ApiM.bind, ApiM.liftE, ApiM.pure, PyVal.getItem, Workspace.populate, h2,
      processResponse_jsonOk]
  · intro api p w h
    unfold Project.workspace
    rw [h]
    rfl

/-- C6 counterexample: the first access of `Tag.workspace` on a tag with
an empty slot issues two GET requests (the tag record and the Workspace
constructor's own fetch), not one. -/
theorem c6_workspace_memoized_counterexample :
    (Tag.workspace memoApi tag5).2 =
      [⟨.GET, "tags", "5", []⟩, ⟨.GET, "workspaces", "2", []⟩] ∧
    (Tag.workspace memoApi tag5).2.length = 2 ∧ 2 ≠ 1 :=
  ⟨rfl, rfl, by decide⟩

/-- C6 witness: a concrete first access caches the workspace after two
GETs, the second access returns the identical cached object with no HTTP
call, and a concrete Project behaves the same. -/
theorem c6_workspace_memoized_witness :
    Tag.workspace memoApi tag5 =
      (.ok ({ tag5 with gworkspace := some ⟨.vint 2, .vstr "Eng"⟩ },
        (⟨.vint 2, .vstr "Eng"⟩ : WorkspaceState)),
       [⟨.GET, "tags", "5", []⟩, ⟨.GET, "workspaces", "2", []⟩]) ∧
    Tag.workspace memoApi { tag5 with gworkspace := some ⟨.vint 2, .vstr "Eng"⟩ } =
      (.ok ({ tag5 with gworkspace := some ⟨.vint 2, .vstr "Eng"⟩ },
        (⟨.vint 2, .vstr "Eng"⟩ : WorkspaceState)), []) ∧
    Project.workspace memoApi project4 =
      (.ok ({ project4 with pworkspace := some ⟨.vint 2, .vstr "Eng"⟩ },
        (⟨.vint 2, .vstr "Eng"⟩ : WorkspaceState)),
       [⟨.GET, "projects", "4", []⟩, ⟨.GET, "workspaces", "2", []⟩]) :=
  ⟨c6_workspace_memoized_amended.1 memoApi tag5 (.vint 2) (.vint 2) (.vstr "Eng")
     rfl rfl rfl,
   c6_workspace_memoized_amended.2.1 memoApi
     { tag5 with gworkspace := some ⟨.vint 2, .vstr "Eng"⟩ } ⟨.vint 2, .vstr "Eng"⟩ rfl,
   c6_workspace_memoized_amended.2.2.1 memoApi project4 (.vint 2) (.vint 2) (.vstr "Eng")
     rfl rfl rfl⟩

/-- C1 (amended): each settable field of Task (name, notes, completed),
Workspace (name), Tag (name, notes), and Project (name, notes, archived)
issues, when the PUT succeeds, exactly one PUT to the resource's own
endpoint with body `\x7bfield: value\x7d` keyed by the field's own name,
and the local attribute then equals the assigned value.
`Task.assignee_status` likewise issues exactly one PUT and updates
locally, but its body key is the literal `status`, not the attribute name
`assignee_status`.  (`Task.assignee` is excluded: its setter re-enters
itself and never terminates, see the C5 theorem.) -/
theorem c1_mutator_single_put_amended :
    (∀ (api : Api) (t : TaskState) (v jr : PyVal),
      processResponse (api.server ⟨.PUT, "tasks", t.tid.pyStr, [("name", v)]⟩) = .ok jr →
      Task.set_name api t v =
        (.ok { t with tname := v }, [⟨.PUT, "tasks", t.tid.pyStr, [("name", v)]⟩])) ∧
    (∀ (api : Api) (t : TaskState) (v jr : PyVal),
      processResponse (api.server ⟨.PUT, "tasks", t.tid.pyStr, [("notes", v)]⟩) = .ok jr →
      Task.set_notes api t v =
        (.ok { t with tnotes := v }, [⟨.PUT, "tasks", t.tid.pyStr, [("notes", v)]⟩])) ∧
    (∀ (api : Api) (t : TaskState) (v jr : PyVal),
      processResponse (api.server ⟨.PUT, "tasks", t.tid.pyStr, [("completed", v)]⟩) = .ok jr →
      Task.set_completed api t v =
        (.ok { t with tcompleted := v }, [⟨.PUT, "tasks", t.tid.pyStr, [("completed", v)]⟩])) ∧
    (∀ (api : Api) (t : TaskState) (v jr : PyVal),
      assigneeStatusOk v = true →
      processResponse (api.server ⟨.PUT, "tasks", t.tid.pyStr, [("status", v)]⟩) = .ok jr →
      Task.set_assignee_status api t v =
        (.ok { t with tassignee_status := v },
         [⟨.PUT, "tasks", t.tid.pyStr, [("status", v)]⟩])) ∧
    (∀ (api : Api) (w : WorkspaceState) (v jr : PyVal),
      processResponse (api.server ⟨.PUT, "workspaces", w.wid.pyStr, [("name", v)]⟩) = .ok jr →
      Workspace.set_name api w v =
        (.ok { w with wname := v }, [⟨.PUT, "workspaces", w.wid.pyStr, [("name", v)]⟩])) ∧
    (∀ (api : Api) (g : TagState) (v jr : PyVal),
      processResponse (api.server ⟨.PUT, "tags", g.gid.pyStr, [("name", v)]⟩) = .ok jr →
      Tag.set_name api g v =
        (.ok { g with gname := v }, [⟨.PUT, "tags", g.gid.pyStr, [("name", v)]⟩])) ∧
    (∀ (api : Api) (g : TagState) (v jr : PyVal),
      processResponse (api.server ⟨.PUT, "tags", g.gid.pyStr, [("notes", v)]⟩) = .ok jr →
      Tag.set_notes api g v =
        (.ok { g with gnotes := v }, [⟨.PUT, "tags", g.gid.pyStr, [("notes", v)]⟩])) ∧
    (∀ (api : Api) (p : ProjectState) (v jr : PyVal),
      processResponse (api.server ⟨.PUT, "projects", p.pid.pyStr, [("name", v)]⟩) = .ok jr →
      Project.set_name api p v =
        (.ok { p with pname := v }, [⟨.PUT, "projects", p.pid.pyStr, [("name", v)]⟩])) ∧
    (∀ (api : Api) (p : ProjectState) (v jr : PyVal),
      processResponse (api.server ⟨.PUT, "projects", p.pid.pyStr, [("notes", v)]⟩) = .ok jr →
      Project.set_notes api p v =
        (.ok { p with pnotes := v }, [⟨.PUT, "projects", p.pid.pyStr, [("notes", v)]⟩])) ∧
    (∀ (api : Api) (p : ProjectState) (v jr : PyVal),
      processResponse (api.server ⟨.PUT, "projects", p.pid.pyStr, [("archived", v)]⟩) = .ok jr →
      Project.set_archived api p v =
        (.ok { p with parchived := v },
         [⟨.PUT, "projects", p.pid.pyStr, [("archived", v)]⟩])) := by
  refine ⟨?_, ?_, ?_, ?_, ?_, ?_, ?_, ?_, ?_, ?_⟩
  · intro api t v jr h
    exact ApiM.put_then_update api "tasks" t.tid.pyStr [("name", v)] { t with tname := v } jr h
  · intro api t v jr h
    exact ApiM.put_then_update api "tasks" t.tid.pyStr [("notes", v)] { t with tnotes := v } jr h
  · intro api t v jr h
    exact ApiM.put_then_update api "tasks" t.tid.pyStr [("completed", v)]
      { t with tcompleted := v } jr h
  · intro api t v jr hok h
    unfold Task.set_assignee_status
    rw [hok]
    exact ApiM.put_then_update api "tasks" t.tid.pyStr [("status", v)]
      { t with tassignee_status := v } jr h
  · intro api w v jr h
    exact ApiM.put_then_update api "workspaces" w.wid.pyStr [("name", v)]
      { w with wname := v } jr h
  · intro api g v jr h
    exact ApiM.put_then_update api "tags" g.gid.pyStr [("name", v)] { g with gname := v } jr h
  · intro api g v jr h
    exact ApiM.put_then_update api "tags" g.gid.pyStr [("notes", v)] { g with gnotes := v } jr h
  · intro api p v jr h
    exact ApiM.put_then_update api "projects" p.pid.pyStr [("name", v)]
      { p with pname := v } jr h
  · intro api p v jr h
    exact ApiM.put_then_update api "projects" p.pid.pyStr [("notes", v)]
      { p with pnotes := v } jr h
  · intro api p v jr h
    exact ApiM.put_then_update api "projects" p.pid.pyStr [("archived", v)]
      { p with parchived := v } jr h

/-- C1 counterexample: assigning `assignee_status` issues one PUT whose
body is keyed `status`, so no issued request carries the field's own name
`assignee_status`, contradicting the claim for that field. -/
theorem c1_mutator_single_put_counterexample :
    (Task.set_assignee_status okServerApi task7 (.vstr "today")).2 =
      [⟨.PUT, "tasks", "7", [("status", .vstr "today")]⟩] ∧
    ((Task.set_assignee_status okServerApi task7 (.vstr "today")).2.all
      (fun r => r.hasKey "assignee_status")) = false ∧
    ((Task.set_assignee_status okServerApi task7 (.vstr "today")).2.all
      (fun r => r.hasKey "status")) = true ∧
    (Task.set_assignee_status okServerApi task7 (.vstr "today")).1 =
      .ok { task7 with tassignee_status := .vstr "today" } :=
  ⟨rfl, rfl, rfl, rfl⟩

/-- C1 witness: concrete assignments for every conjunct of the amended
theorem. -/
theorem c1_mutator_single_put_witness :
    Task.set_name okServerApi task7 (.vstr "x") =
      (.ok { task7 with tname := .vstr "x" },
       [⟨.PUT, "tasks", "7", [("name", .vstr "x")]⟩]) ∧
    Task.set_notes okServerApi task7 (.vstr "n") =
      (.ok { task7 with tnotes := .vstr "n" },
       [⟨.PUT, "tasks", "7", [("notes", .vstr "n")]⟩]) ∧
    Task.set_completed okServerApi task7 (.vbool true) =
      (.ok { task7 with tcompleted := .vbool true },
       [⟨.PUT, "tasks", "7", [("completed", .vbool true)]⟩]) ∧
    Task.set_assignee_status okServerApi task7 (.vstr "later") =
      (.ok { task7 with tassignee_status := .vstr "later" },
       [⟨.PUT, "tasks", "7", [("status", .vstr "later")]⟩]) ∧
    Workspace.set_name okServerApi workspace3 (.vstr "w") =
      (.ok { workspace3 with wname := .vstr "w" },
       [⟨.PUT, "workspaces", "3", [("name", .vstr "w")]⟩]) ∧
    Tag.set_name okServerApi tag5 (.vstr "t") =
      (.ok { tag5 with gname := .vstr "t" },
       [⟨.PUT, "tags", "5", [("name", .vstr "t")]⟩]) ∧
    Tag.set_notes okServerApi tag5 (.vstr "o") =
      (.ok { tag5 with gnotes := .vstr "o" },
       [⟨.PUT, "tags", "5", [("notes", .vstr "o")]⟩]) ∧
    Project.set_name okServerApi project4 (.vstr "p") =
      (.ok { project4 with pname := .vstr "p" },
       [⟨.PUT, "projects", "4", [("name", .vstr "p")]⟩]) ∧
    Project.set_notes okServerApi project4 (.vstr "q") =
      (.ok { project4 with pnotes := .vstr "q" },
       [⟨.PUT, "projects", "4", [("notes", .vstr "q")]⟩]) ∧
    Project.set_archived okServerApi project4 (.vbool true) =
      (.ok { project4 with parchived := .vbool true },
       [⟨.PUT, "projects", "4", [("archived", .vbool true)]⟩]) :=
  ⟨c1_mutator_single_put_amended.1 okServerApi task7 (.vstr "x") (.vdict []) rfl,
   c1_mutator_single_put_amended.2.1 okServerApi task7 (.vstr "n") (.vdict []) rfl,
   c1_mutator_single_put_amended.2.2.1 okServerApi task7 (.vbool true) (.vdict []) rfl,
   c1_mutator_single_put_amended.2.2.2.1 okServerApi task7 (.vstr "later") (.vdict []) rfl rfl,
   c1_mutator_single_put_amended.2.2.2.2.1 okServerApi workspace3 (.vstr "w") (.vdict []) rfl,
   c1_mutator_single_put_amended.2.2.2.2.2.1 okServerApi tag5 (.vstr "t") (.vdict []) rfl,
   c1_mutator_single_put_amended.2.2.2.2.2.2.1 okServerApi tag5 (.vstr "o") (.vdict []) rfl,
   c1_mutator_single_put_amended.2.2.2.2.2.2.2.1 okServerApi project4 (.vstr "p") (.vdict []) rfl,
   c1_mutator_single_put_amended.2.2.2.2.2.2.2.2.1 okServerApi project4 (.vstr "q")
     (.vdict []) rfl,
   c1_mutator_single_put_amended.2.2.2.2.2.2.2.2.2 okServerApi project4 (.vbool true)
     (.vdict []) rfl⟩

/-- C7: `add_tag`/`remove_tag` accept an integer id, a string id, or a
Tag object, always posting `\x7b'tag': id-as-passed-or-extracted\x7d` to
the task's `addTag`/`removeTag` sub-endpoint; `add_project` and
`remove_project` behave the same with `project`; any other argument type
(floats among them) raises the domain error with an empty trace; and an
integer id, its string form, and a Tag carrying the integer render to the
same wire value. -/
theorem c7_change_obj_normalization :
    (∀ (api : Api) (t : TaskState) (i : Int),
      (Task.add_tag api t (.val (.vint i))).2 =
        [⟨.POST, "tasks", t.tid.pyStr ++ "/addTag", [("tag", .vint i)]⟩]) ∧
    (∀ (api : Api) (t : TaskState) (s : String),
      (Task.add_tag api t (.val (.vstr s))).2 =
        [⟨.POST, "tasks", t.tid.pyStr ++ "/addTag", [("tag", .vstr s)]⟩]) ∧
    (∀ (api : Api) (t : TaskState) (g : TagState) (i : Int),
      g.gid = .vint i →
      (Task.add_tag api t (.tagObj g)).2 =
        [⟨.POST, "tasks", t.tid.pyStr ++ "/addTag", [("tag", .vint i)]⟩]) ∧
    (∀ (api : Api) (t : TaskState),
      Task.add_tag api t (.val .vfloat) =
        (.error (.asanaError "Requires an int, str, or tag"), [])) ∧
    (∀ (api : Api) (t : TaskState) (arg : PyObj),
      arg.isinst_int = false → arg.isinst_str = false → arg.isTagInstance = false →
      Task.add_tag api t arg =
        (.error (.asanaError "Requires an int, str, or tag"), [])) ∧
    (∀ (api : Api) (t : TaskState) (i : Int),
      (Task.remove_tag api t (.val (.vint i))).2 =
        [⟨.POST, "tasks", t.tid.pyStr ++ "/removeTag", [("tag", .vint i)]⟩]) ∧
    (∀ (api : Api) (t : TaskState) (s : String),
      (Task.remove_tag api t (.val (.vstr s))).2 =
        [⟨.POST, "tasks", t.tid.pyStr ++ "/removeTag", [("tag", .vstr s)]⟩]) ∧
    (∀ (api : Api) (t : TaskState) (g : TagState) (i : Int),
      g.gid = .vint i →
      (Task.remove_tag api t (.tagObj g)).2 =
        [⟨.POST, "tasks", t.tid.pyStr ++ "/removeTag", [("tag", .vint i)]⟩]) ∧
    (∀ (api : Api) (t : TaskState) (arg : PyObj),
      arg.isinst_int = false → arg.isinst_str = false → arg.isTagInstance = false →
      Task.remove_tag api t arg =
        (.error (.asanaError "Requires an int, str, or tag"), [])) ∧
    (∀ (api : Api) (t : TaskState) (i : Int),
      (Task.add_project api t (.val (.vint i))).2 =
        [⟨.POST, "tasks", t.tid.pyStr ++ "/addProject", [("project", .vint i)]⟩]) ∧
    (∀ (api : Api) (t : TaskState) (s : String),
      (Task.add_project api t (.val (.vstr s))).2 =
        [⟨.POST, "tasks", t.tid.pyStr ++ "/addProject", [("project", .vstr s)]⟩]) ∧
    (∀ (api : Api) (t : TaskState) (p : ProjectState) (i : Int),
      p.pid = .vint i →
      (Task.add_project api t (.projectObj p)).2 =
        [⟨.POST, "tasks", t.tid.pyStr ++ "/addProject", [("project", .vint i)]⟩]) ∧
    (∀ (api : Api) (t : TaskState) (arg : PyObj),
      arg.isinst_int = false → arg.isinst_str = false → arg.isProjectInstance = false →
      Task.add_project api t arg =
        (.error (.asanaError "Requires an int, str, or project"), [])) ∧
    (∀ (api : Api) (t : TaskState) (i : Int),
      (Task.remove_project api t (.val (.vint i))).2 =
        [⟨.POST, "tasks", t.tid.pyStr ++ "/removeProject", [("project", .vint i)]⟩]) ∧
    (∀ (api : Api) (t : TaskState) (s : String),
      (Task.remove_project api t (.val (.vstr s))).2 =
        [⟨.POST, "tasks", t.tid.pyStr ++ "/removeProject", [("project", .vstr s)]⟩]) ∧
    (∀ (api : Api) (t : TaskState) (p : ProjectState) (i : Int),
      p.pid = .vint i →
      (Task.remove_project api t (.projectObj p)).2 =
        [⟨.POST, "tasks", t.tid.pyStr ++ "/removeProject", [("project", .vint i)]⟩]) ∧
    (∀ (api : Api) (t : TaskState) (arg : PyObj),
      arg.isinst_int = false → arg.isinst_str = false → arg.isProjectInstance = false →
      Task.remove_project api t arg =
        (.error (.asanaError "Requires an int, str, or project"), [])) ∧
    (∀ i : Int,
      (PyVal.vint i).pyStr = toString i ∧ (PyVal.vstr (toString i)).pyStr = toString i) := by
  refine ⟨?_, ?_, ?_, ?_, ?_, ?_, ?_, ?_, ?_, ?_, ?_, ?_, ?_, ?_, ?_, ?_, ?_, ?_⟩
  · intro api t i
    exact ApiM.post_then_unit_trace api "tasks" (t.tid.pyStr ++ "/addTag") [("tag", .vint i)]
  · intro api t s
    exact ApiM.post_then_unit_trace api "tasks" (t.tid.pyStr ++ "/addTag") [("tag", .vstr s)]
  · intro api t g i hg
    rw [← hg]
    exact ApiM.post_then_unit_trace api "tasks" (t.tid.pyStr ++ "/addTag") [("tag", g.gid)]
  · intro api t
    rfl
  · intro api t arg h1 h2 h3
    cases arg with
    | val v => cases v <;> first
      | rfl
      | simp_all [PyObj.isinst_int, PyObj.isinst_str]
    | tagObj g => simp_all [PyObj.isTagInstance]
    | projectObj p => rfl
    | userObj u => rfl
  · intro api t i
    exact ApiM.post_then_unit_trace api "tasks" (t.tid.pyStr ++ "/removeTag") [("tag", .vint i)]
  · intro api t s
    exact ApiM.post_then_unit_trace api "tasks" (t.tid.pyStr ++ "/removeTag") [("tag", .vstr s)]
  · intro api t g i hg
    rw [← hg]
    exact ApiM.post_then_unit_trace api "tasks" (t.tid.pyStr ++ "/removeTag") [("tag", g.gid)]
  · intro api t arg h1 h2 h3
    cases arg with
    | val v => cases v <;> first
      | rfl
      | simp_all [PyObj.isinst_int, PyObj.isinst_str]
    | tagObj g => simp_all [PyObj.isTagInstance]
    | projectObj p => rfl
    | userObj u => rfl
  · intro api t i
    exact ApiM.post_then_unit_trace api "tasks" (t.tid.pyStr ++ "/addProject")
      [("project", .vint i)]
  · intro api t s
    exact ApiM.post_then_unit_trace api "tasks" (t.tid.pyStr ++ "/addProject")
      [("project", .vstr s)]
  · intro api t p i hp
    rw [← hp]
    exact ApiM.post_then_unit_trace api "tasks" (t.tid.pyStr ++ "/addProject")
      [("project", p.pid)]
  · intro api t arg h1 h2 h3
    cases arg with
    | val v => cases v <;> first
      | rfl
      | simp_all [PyObj.isinst_int, PyObj.isinst_str]
    | tagObj g => rfl
    | projectObj p => simp_all [PyObj.isProjectInstance]
    | userObj u => rfl
  · intro api t i
    exact ApiM.post_then_unit_trace api "tasks" (t.tid.pyStr ++ "/removeProject")
      [("project", .vint i)]
  · intro api t s
    exact ApiM.post_then_unit_trace api "tasks" (t.tid.pyStr ++ "/removeProject")
      [("project", .vstr s)]
  · intro api t p i hp
    rw [← hp]
    exact ApiM.post_then_unit_trace api "tasks" (t.tid.pyStr ++ "/removeProject")
      [("project", p.pid)]
  · intro api t arg h1 h2 h3
    cases arg with
    | val v => cases v <;> first
      | rfl
      | simp_all [PyObj.isinst_int, PyObj.isinst_str]
    | tagObj g => rfl
    | projectObj p => simp_all [PyObj.isProjectInstance]
    | userObj u => rfl
  · intro i
    exact ⟨rfl, rfl⟩

/-- C7 witness: concrete calls covering the hypothesis-bearing conjuncts
— a Tag object with id 5, a Project object with id 4, and a User object
as the unsupported argument type. -/
theorem c7_change_obj_normalization_witness :
    (Task.add_tag okServerApi task7 (.tagObj tag5)).2 =
      [⟨.POST, "tasks", "7/addTag", [("tag", .vint 5)]⟩] ∧
    (Task.remove_tag okServerApi task7 (.tagObj tag5)).2 =
      [⟨.POST, "tasks", "7/removeTag", [("tag", .vint 5)]⟩] ∧
    (Task.add_project okServerApi task7 (.projectObj project4)).2 =
      [⟨.POST, "tasks", "7/addProject", [("project", .vint 4)]⟩] ∧
    (Task.remove_project okServerApi task7 (.projectObj project4)).2 =
      [⟨.POST, "tasks", "7/removeProject", [("project", .vint 4)]⟩] ∧
    Task.add_tag okServerApi task7 (.userObj user2) =
      (.error (.asanaError "Requires an int, str, or tag"), []) ∧
    Task.add_project okServerApi task7 (.userObj user2) =
      (.error (.asanaError "Requires an int, str, or project"), []) :=
  ⟨c7_change_obj_normalization.2.2.1 okServerApi task7 tag5 5 rfl,
   c7_change_obj_normalization.2.2.2.2.2.2.2.1 okServerApi task7 tag5 5 rfl,
   c7_change_obj_normalization.2.2.2.2.2.2.2.2.2.2.2.1 okServerApi task7 project4 4 rfl,
   c7_change_obj_normalization.2.2.2.2.2.2.2.2.2.2.2.2.2.2.2.1 okServerApi task7 project4 4 rfl,
   c7_change_obj_normalization.2.2.2.2.1 okServerApi task7 (.userObj user2) rfl rfl rfl,
   c7_change_obj_normalization.2.2.2.2.2.2.2.2.2.2.2.2.1 okServerApi task7 (.userObj user2)
     rfl rfl rfl⟩

/-- C10 witness: a concrete creation call posts `workspace` plus the
whole parameter dictionary under the key `kwargs`. -/
theorem c10_kwargs_forwarded_literally_witness :
    (Workspace.create_task okServerApi workspace3 [("name", .vstr "hi")]).2 =
      [⟨.POST, "tasks", "",
        [("workspace", .vint 3), ("kwargs", .vdict [("name", .vstr "hi")])]⟩] ∧
    (Task.add_subtask okServerApi task7 [("name", .vstr "hi")]).2 =
      [⟨.POST, "tasks", "7/subtasks", [("kwargs", .vdict [("name", .vstr "hi")])]⟩] :=
  ⟨c10_kwargs_forwarded_literally.2.2.1 okServerApi workspace3 [("name", .vstr "hi")] rfl,
   c10_kwargs_forwarded_literally.2.2.2 okServerApi task7 [("name", .vstr "hi")] rfl⟩
